import Mathlib

/-!
Shallow embedding of the `unix-socket` Rust crate (`src/lib.rs`), covering the
address codec (`sockaddr_un`, `SocketAddr::address` and its accessors), the
timeout conversion in `Inner::set_timeout` / `Inner::timeout`, descriptor
adoption (`from_raw_fd`), the incoming-connection iterators, and
`UnixDatagram::recv_from`.  Kernel system calls are modelled by explicit
parameters carrying the values the kernel would return; everything the library
itself computes is translated directly from the source.
-/

namespace UnixSocket

/-- Capacity of the `sun_path` field of `libc::sockaddr_un` (108 on Linux).
`addr.sun_path.len()` in the source. -/
def SUN_MAX : Nat := 108

/-- Byte offset of `sun_path` inside `sockaddr_un` (`sun_path_offset()` in the
source; 2 on Linux: `sun_family : u16` is at offset 0). -/
def sun_path_offset : Nat := 2

/-- The `AF_UNIX` address-family constant (1 on Linux). -/
def AF_UNIX : Nat := 1

/-- `usize::max_value()` on a 64-bit platform. -/
def usizeMax : Nat := 2 ^ 64 - 1

/-- `libc::time_t::max_value()` on a 64-bit platform (`i64::MAX`). -/
def timeTMax : Nat := 2 ^ 63 - 1

/-- The kind of an `std::io::Error` as far as this library distinguishes them:
errors built with `io::Error::new(ErrorKind::InvalidInput, ..)` versus errors
taken from the OS (`io::Error::last_os_error()`). -/
inductive ErrorKind where
  | invalidInput
  | osError
  deriving DecidableEq, Repr

/-- An `std::io::Error`: its kind together with the message string the library
attached (for OS errors the placeholder "last_os_error"). -/
structure IOError where
  kind : ErrorKind
  msg : String
  deriving DecidableEq, Repr

/-- The `libc::sockaddr_un` structure: the address-family tag and the 108-byte
`sun_path` array (modelled as a list of byte values). -/
structure SockaddrUn where
  sun_family : Nat
  sun_path : List Nat
  deriving DecidableEq, Repr

/-- The length adjustment at the end of `sockaddr_un` in the source:
`match bytes.get(0) { Some(&0) | None => {} Some(_) => len += 1 }` -- a
pathname input gets one extra byte for its trailing null. -/
def pathnameExtra (bytes : List Nat) : Nat :=
  match bytes.head? with
  | some 0 => 0
  | none => 0
  | some _ => 1

/-- `sockaddr_un` (src/lib.rs:188-218): encode caller-supplied path bytes into
a zeroed `sockaddr_un` with family `AF_UNIX`, applying the length policy
against `SUN_MAX` and returning the struct plus the valid length. -/
def sockaddr_un (bytes : List Nat) : Except IOError (SockaddrUn × Nat) :=
  match bytes.head?, compare bytes.length SUN_MAX with
  | some 0, Ordering.gt =>
      Except.error ⟨ErrorKind.invalidInput, "path must be no longer than SUN_LEN"⟩
  | _, Ordering.gt =>
      Except.error ⟨ErrorKind.invalidInput, "path must be shorter than SUN_LEN"⟩
  | _, Ordering.eq =>
      Except.error ⟨ErrorKind.invalidInput, "path must be shorter than SUN_LEN"⟩
  | _, _ =>
      Except.ok (⟨AF_UNIX, bytes ++ List.replicate (SUN_MAX - bytes.length) 0⟩,
        sun_path_offset + bytes.length + pathnameExtra bytes)

/-- The `AddressKind` enum of the source: the classification of a socket
address. -/
inductive AddressKind where
  | unnamed
  | pathname (p : List Nat)
  | abstractAddr (a : List Nat)
  deriving DecidableEq, Repr

/-- `SocketAddr`: the raw kernel address buffer together with its valid
length. -/
structure SocketAddr where
  addr : SockaddrUn
  len : Nat
  deriving DecidableEq, Repr

/-- `SocketAddr::address` (src/lib.rs:276-288).  `isLinux` models the
`cfg!(not(target_os = "linux"))` conditional compilation. -/
def SocketAddr.address (isLinux : Bool) (s : SocketAddr) : AddressKind :=
  let len := s.len - sun_path_offset
  let path := s.addr.sun_path
  if len = 0 ∨ (isLinux = false ∧ path.headD 0 = 0) then
    AddressKind.unnamed
  else if path.headD 0 = 0 then
    AddressKind.abstractAddr ((path.drop 1).take (len - 1))
  else
    AddressKind.pathname (path.take (len - 1))

/-- `SocketAddr::is_unnamed` (src/lib.rs:259-265). -/
def SocketAddr.is_unnamed (isLinux : Bool) (s : SocketAddr) : Bool :=
  match s.address isLinux with
  | AddressKind.unnamed => true
  | _ => false

/-- `SocketAddr::as_pathname` (src/lib.rs:268-274). -/
def SocketAddr.as_pathname (isLinux : Bool) (s : SocketAddr) : Option (List Nat) :=
  match s.address isLinux with
  | AddressKind.pathname p => some p
  | _ => none

/-- `SocketAddrExt::as_abstract` (src/lib.rs:327-335); this impl is compiled
only for Linux, so the classifier runs with `isLinux = true`. -/
def SocketAddr.as_abstract (s : SocketAddr) : Option (List Nat) :=
  match s.address true with
  | AddressKind.abstractAddr a => some a
  | _ => none

/-- What the kernel hands back through the out-parameters of a call such as
`getsockname` / `getpeername` / `accept` / `recvfrom`: the call's return value
`ret`, the written address buffer and the written length. -/
structure KernelAddrResult where
  ret : Int
  addr : SockaddrUn
  len : Nat
  deriving DecidableEq, Repr

/-- `SocketAddr::new` (src/lib.rs:234-256): fail when the kernel call failed
(`cvt`), substitute `sun_path_offset()` when the kernel reported a zero-length
address, and otherwise require the family to be `AF_UNIX`. -/
def SocketAddr.new (k : KernelAddrResult) : Except IOError SocketAddr :=
  if k.ret < 0 then
    Except.error ⟨ErrorKind.osError, "last_os_error"⟩
  else if k.len = 0 then
    Except.ok ⟨k.addr, sun_path_offset⟩
  else if k.addr.sun_family ≠ AF_UNIX then
    Except.error ⟨ErrorKind.invalidInput,
      "file descriptor did not correspond to a Unix socket"⟩
  else
    Except.ok ⟨k.addr, k.len⟩

/-- `std::time::Duration`: seconds and sub-second nanoseconds
(`as_secs` / `subsec_nanos`). -/
structure Duration where
  secs : Nat
  nanos : Nat
  deriving DecidableEq, Repr

/-- `libc::timeval` as the library uses it: `tv_sec` and `tv_usec`.  All
values the library ever stores are non-negative, so `Nat` fields suffice. -/
structure Timeval where
  tv_sec : Nat
  tv_usec : Nat
  deriving DecidableEq, Repr

/-- `Inner::set_timeout` (src/lib.rs:103-142).  The kernel-side state for one
timeout kind is the stored `timeval`; the function returns the call's result
together with the state after the call.  A zero duration is rejected before
`setsockopt` is reached, so the state is returned unchanged in that case. -/
def Inner.set_timeout (st : Timeval) (dur : Option Duration) :
    Except IOError Unit × Timeval :=
  match dur with
  | some d =>
      if d.secs = 0 ∧ d.nanos = 0 then
        (Except.error ⟨ErrorKind.invalidInput, "cannot set a 0 duration timeout"⟩, st)
      else
        let su : Nat × Nat :=
          if d.secs > timeTMax then (timeTMax, 999999)
          else (d.secs, d.nanos / 1000)
        let t : Timeval := ⟨su.1, su.2⟩
        let t := if t.tv_sec = 0 ∧ t.tv_usec = 0 then { t with tv_usec := 1 } else t
        (Except.ok (), t)
  | none => (Except.ok (), ⟨0, 0⟩)

/-- `Inner::timeout` (src/lib.rs:84-101), with the kernel `getsockopt`
succeeding and returning the stored `timeval`: `{0,0}` reads back as `none`,
anything else as `Duration::new(tv_sec, tv_usec * 1000)`. -/
def Inner.timeout (st : Timeval) : Option Duration :=
  if st.tv_sec = 0 ∧ st.tv_usec = 0 then none
  else some ⟨st.tv_sec, st.tv_usec * 1000⟩

/-- `UnixStream`: wraps the raw descriptor (`Inner(fd)`). -/
structure UnixStream where
  fd : Int
  deriving DecidableEq, Repr

/-- `UnixSeqpacket`: wraps the raw descriptor (`Inner(fd)`). -/
structure UnixSeqpacket where
  fd : Int
  deriving DecidableEq, Repr

/-- `<UnixStream as FromRawFd>::from_raw_fd` (src/lib.rs:507-511): the
descriptor is wrapped as-is. -/
def UnixStream.from_raw_fd (fd : Int) : UnixStream := ⟨fd⟩

/-- `from_raw_fd` lifted to the fallible signature the spec ascribes to
adoption.  `family` is the address family the kernel would report for `fd`;
the source never reads it and never fails. -/
def from_raw_fd_result (_family : Nat) (fd : Int) : Except IOError UnixStream :=
  Except.ok (UnixStream.from_raw_fd fd)

/-- `UnixStreamListener::accept` (src/lib.rs:760-770) with the kernel `accept`
call's outcome `k` supplied: the accepted descriptor is `k.ret`, and the
peer address goes through `SocketAddr::new`. -/
def UnixStreamListener.acceptOutcome (k : KernelAddrResult) :
    Except IOError (UnixStream × SocketAddr) :=
  match SocketAddr.new k with
  | Except.error e => Except.error e
  | Except.ok a => Except.ok (⟨k.ret⟩, a)

/-- `UnixSeqpacketListener::accept` (src/lib.rs:593-603), as above. -/
def UnixSeqpacketListener.acceptOutcome (k : KernelAddrResult) :
    Except IOError (UnixSeqpacket × SocketAddr) :=
  match SocketAddr.new k with
  | Except.error e => Except.error e
  | Except.ok a => Except.ok (⟨k.ret⟩, a)

/-- `<IncomingStream as Iterator>::next` (src/lib.rs:842-848):
`Some(self.listener.accept().map(|s| s.0))`. -/
def IncomingStream.next (k : KernelAddrResult) : Option (Except IOError UnixStream) :=
  some ((UnixStreamListener.acceptOutcome k).map Prod.fst)

/-- `<IncomingStream as Iterator>::size_hint` (src/lib.rs:849-851):
`(usize::max_value(), None)`. -/
def IncomingStream.size_hint : Nat × Option Nat := (usizeMax, none)

/-- `<IncomingSeqpacket as Iterator>::next` (src/lib.rs:675-680). -/
def IncomingSeqpacket.next (k : KernelAddrResult) : Option (Except IOError UnixSeqpacket) :=
  some ((UnixSeqpacketListener.acceptOutcome k).map Prod.fst)

/-- `<IncomingSeqpacket as Iterator>::size_hint` (src/lib.rs:682-684). -/
def IncomingSeqpacket.size_hint : Nat × Option Nat := (usizeMax, none)

/-- `UnixStreamListener::bind` / `UnixSeqpacketListener::bind`
(src/lib.rs:743-753 and 576-586): create a socket, encode the address, then
kernel-`bind` and kernel-`listen`.  The kernel calls are supplied as
parameters (`ksocket` the descriptor allocation, `kbind` indexed by the
encoded address, `klisten` by the descriptor). -/
def listenerBindModel (ksocket : Except IOError Int)
    (kbind : SockaddrUn → Nat → Except IOError Unit)
    (klisten : Int → Except IOError Unit)
    (path : List Nat) : Except IOError Int :=
  match ksocket with
  | Except.error e => Except.error e
  | Except.ok fd =>
      match sockaddr_un path with
      | Except.error e => Except.error e
      | Except.ok (addr, len) =>
          match kbind addr len with
          | Except.error e => Except.error e
          | Except.ok _ =>
              match klisten fd with
              | Except.error e => Except.error e
              | Except.ok _ => Except.ok fd

/-- `UnixStream::connect` / `UnixSeqpacket::connect` (src/lib.rs:379-391 and
1125-1137), and also the shape of `UnixDatagram::bind` (src/lib.rs:893-902):
create a socket, encode the address, then issue one kernel call on the
descriptor and address. -/
def connectModel (ksocket : Except IOError Int)
    (kconnect : Int → SockaddrUn → Nat → Except IOError Unit)
    (path : List Nat) : Except IOError Int :=
  match ksocket with
  | Except.error e => Except.error e
  | Except.ok fd =>
      match sockaddr_un path with
      | Except.error e => Except.error e
      | Except.ok (addr, len) =>
          match kconnect fd addr len with
          | Except.error e => Except.error e
          | Except.ok _ => Except.ok fd

/-- `UnixDatagram::connect` (src/lib.rs:922-930) and the address-encoding
prefix of `UnixDatagram::send_to`: encode the address for an existing
descriptor, then issue the kernel call. -/
def dgramConnectModel (fd : Int)
    (kconnect : Int → SockaddrUn → Nat → Except IOError Unit)
    (path : List Nat) : Except IOError Unit :=
  match sockaddr_un path with
  | Except.error e => Except.error e
  | Except.ok (addr, len) => kconnect fd addr len

/-- What the kernel `recvfrom` call produces: the byte count (negative on
failure) and the written-back address buffer and length. -/
structure DgramKernelRecv where
  count : Int
  addr : SockaddrUn
  len : Nat
  deriving DecidableEq, Repr

/-- `UnixDatagram::recv_from` (src/lib.rs:957-978): the closure passed to
`SocketAddr::new` returns `1` for a positive count, `0` for a zero count and
`-1` for a negative count; on success the kernel count is returned as
`usize` together with the decoded address. -/
def UnixDatagram.recv_from (k : DgramKernelRecv) :
    Except IOError (Nat × SocketAddr) :=
  let ret : Int := if 0 < k.count then 1 else if k.count = 0 then 0 else -1
  match SocketAddr.new ⟨ret, k.addr, k.len⟩ with
  | Except.error e => Except.error e
  | Except.ok a => Except.ok (k.count.toNat, a)

/-- Helper: `sockaddr_un` on an accepted input (length below `SUN_MAX`)
returns the zero-padded buffer and the computed valid length. -/
theorem sockaddr_un_ok (bytes : List Nat) (h : bytes.length < SUN_MAX) :
    sockaddr_un bytes =
      Except.ok (⟨AF_UNIX, bytes ++ List.replicate (SUN_MAX - bytes.length) 0⟩,
        sun_path_offset + bytes.length + pathnameExtra bytes) := by
  have hc : compare bytes.length SUN_MAX = Ordering.lt := Nat.compare_eq_lt.mpr h
  rcases bytes with _ | ⟨b, bs⟩
  · rfl
  · cases b with
    | zero =>
        unfold sockaddr_un
        rw [hc]
        rfl
    | succ n =>
        unfold sockaddr_un
        rw [hc]
        rfl

/-- Helper: decoding a buffer whose path bytes start with a non-zero byte and
whose valid length is `sun_path_offset + (bs.length + 1) + 1` classifies as a
pathname, dropping the trailing null. -/
theorem address_pathname_eq (isLinux : Bool) (n : Nat) (bs rest : List Nat) :
    SocketAddr.address isLinux
        ⟨⟨AF_UNIX, (n + 1) :: (bs ++ rest)⟩, sun_path_offset + (bs.length + 1) + 1⟩ =
      AddressKind.pathname ((n + 1) :: bs) := by
  unfold SocketAddr.address sun_path_offset
  have h1 : 2 + (bs.length + 1) + 1 - 2 = bs.length + 2 := by omega
  rw [h1]
  simp [List.take_succ_cons, List.take_left]

/-- Helper: decoding a buffer whose path bytes start with a zero byte and
whose valid length is `sun_path_offset + (a.length + 1)` classifies (on
Linux) as an abstract address holding the bytes after the leading zero. -/
theorem address_abstract_eq (a rest : List Nat) :
    SocketAddr.address true
        ⟨⟨AF_UNIX, 0 :: (a ++ rest)⟩, sun_path_offset + (a.length + 1)⟩ =
      AddressKind.abstractAddr a := by
  unfold SocketAddr.address sun_path_offset
  have h1 : 2 + (a.length + 1) - 2 = a.length + 1 := by omega
  rw [h1]
  simp [List.take_left]

/-- C1: encoding a valid pathname input `p` (non-empty, first byte non-zero,
length below `SUN_MAX`) with `sockaddr_un` and classifying the resulting
buffer/length pair with `SocketAddr::address` yields a `Pathname` whose bytes
equal `p`, the trailing null excluded. -/
theorem pathname_roundtrip (isLinux : Bool) (p : List Nat)
    (hne : p ≠ []) (h0 : p.headD 0 ≠ 0) (hlen : p.length < SUN_MAX) :
    ∃ addr len, sockaddr_un p = Except.ok (addr, len) ∧
      SocketAddr.address isLinux ⟨addr, len⟩ = AddressKind.pathname p ∧
      SocketAddr.as_pathname isLinux ⟨addr, len⟩ = some p := by
  rcases p with _ | ⟨b, bs⟩
  · exact absurd rfl hne
  have hb : b ≠ 0 := by simpa using h0
  cases b with
  | zero => exact absurd rfl hb
  | succ n =>
      refine ⟨_, _, sockaddr_un_ok _ hlen, ?_, ?_⟩
      · have hex : pathnameExtra ((n + 1) :: bs) = 1 := rfl
        simp only [List.cons_append, List.length_cons, hex]
        exact address_pathname_eq isLinux n bs _
      · have hex : pathnameExtra ((n + 1) :: bs) = 1 := rfl
        simp only [SocketAddr.as_pathname, List.cons_append, List.length_cons, hex]
        rw [address_pathname_eq isLinux n bs _]

/-- Witness for C1 at the concrete pathname `[104, 105]`. -/
theorem pathname_roundtrip_witness :
    ∃ addr len, sockaddr_un [104, 105] = Except.ok (addr, len) ∧
      SocketAddr.address true ⟨addr, len⟩ = AddressKind.pathname [104, 105] ∧
      SocketAddr.as_pathname true ⟨addr, len⟩ = some [104, 105] :=
  pathname_roundtrip true [104, 105] (by decide) (by decide) (by decide)

/-- C2 counterexample: at `a = List.replicate 107 1`, whose length
`107 = SUN_MAX - 1` is strictly below `SUN_MAX`, encoding `0 :: a` (total
input length exactly `SUN_MAX`) does not succeed: the `Ordering::Equal` arm
rejects it with `InvalidInput` "path must be shorter than SUN_LEN", so the
claimed round-trip fails for this `a`. -/
theorem abstract_roundtrip_cex :
    (List.replicate 107 1 : List Nat).length < SUN_MAX ∧
    sockaddr_un (0 :: List.replicate 107 1) =
      Except.error ⟨ErrorKind.invalidInput, "path must be shorter than SUN_LEN"⟩ := by
  constructor
  · decide
  · rfl

/-- C2 amended: for every byte string `a` with `a.length + 1 < SUN_MAX`
(total encoder input strictly shorter than `SUN_MAX`), encoding `0 :: a`
succeeds and classifying the result yields an `Abstract` address whose bytes
equal `a`. -/
theorem abstract_roundtrip (a : List Nat) (h : a.length + 1 < SUN_MAX) :
    ∃ addr len, sockaddr_un (0 :: a) = Except.ok (addr, len) ∧
      SocketAddr.address true ⟨addr, len⟩ = AddressKind.abstractAddr a ∧
      SocketAddr.as_abstract ⟨addr, len⟩ = some a := by
  have hlen : (0 :: a).length < SUN_MAX := by simpa using h
  refine ⟨_, _, sockaddr_un_ok _ hlen, ?_, ?_⟩
  · have hex : pathnameExtra (0 :: a) = 0 := rfl
    simp only [List.cons_append, List.length_cons, hex, Nat.add_zero]
    exact address_abstract_eq a _
  · have hex : pathnameExtra (0 :: a) = 0 := rfl
    simp only [SocketAddr.as_abstract, List.cons_append, List.length_cons, hex, Nat.add_zero]
    rw [address_abstract_eq a _]

/-- Witness for the amended C2 at the concrete abstract name `[1, 2, 3]`. -/
theorem abstract_roundtrip_witness :
    ∃ addr len, sockaddr_un (0 :: [1, 2, 3]) = Except.ok (addr, len) ∧
      SocketAddr.address true ⟨addr, len⟩ = AddressKind.abstractAddr [1, 2, 3] ∧
      SocketAddr.as_abstract ⟨addr, len⟩ = some [1, 2, 3] :=
  abstract_roundtrip [1, 2, 3] (by decide)

/-- C3: the encoder's length policy.  An input beginning with a zero byte and
longer than `SUN_MAX` fails with `InvalidInput` "path must be no longer than
SUN_LEN"; otherwise any input of length at least `SUN_MAX` fails with
`InvalidInput` "path must be shorter than SUN_LEN" (this includes an abstract
input of total length exactly `SUN_MAX`); all shorter inputs are accepted.
An encoder error propagates unchanged through the listener `bind` models
(stream and seqpacket), the `connect` model (stream, seqpacket, and the shape
of datagram `bind`), and the datagram `connect` model. -/
theorem length_policy (bytes : List Nat) :
    (bytes.head? = some 0 → SUN_MAX < bytes.length →
      sockaddr_un bytes =
        Except.error ⟨ErrorKind.invalidInput, "path must be no longer than SUN_LEN"⟩) ∧
    ((bytes.head? = some 0 → bytes.length ≤ SUN_MAX) → SUN_MAX ≤ bytes.length →
      sockaddr_un bytes =
        Except.error ⟨ErrorKind.invalidInput, "path must be shorter than SUN_LEN"⟩) ∧
    (bytes.length < SUN_MAX → ∃ r, sockaddr_un bytes = Except.ok r) ∧
    (∀ e fd kbind klisten kconnect,
      sockaddr_un bytes = Except.error e →
      listenerBindModel (Except.ok fd) kbind klisten bytes = Except.error e ∧
      connectModel (Except.ok fd) kconnect bytes = Except.error e ∧
      dgramConnectModel fd kconnect bytes = Except.error e) := by
  refine ⟨?_, ?_, ?_, ?_⟩
  · intro h0 hgt
    have hc : compare bytes.length SUN_MAX = Ordering.gt := Nat.compare_eq_gt.mpr hgt
    rcases bytes with _ | ⟨b, bs⟩
    · exact absurd h0 (by simp)
    · have hb : b = 0 := by simpa using h0
      subst hb
      unfold sockaddr_un
      rw [hc]
      rfl
  · intro himp hge
    rcases Nat.eq_or_lt_of_le hge with heq | hgt
    · have hc : compare bytes.length SUN_MAX = Ordering.eq := by
        rw [Nat.compare_eq_eq]
        omega
      rcases bytes with _ | ⟨b, bs⟩
      · simp [SUN_MAX] at heq
      · cases b with
        | zero =>
            unfold sockaddr_un
            rw [hc]
            rfl
        | succ n =>
            unfold sockaddr_un
            rw [hc]
            rfl
    · have hc : compare bytes.length SUN_MAX = Ordering.gt := Nat.compare_eq_gt.mpr hgt
      rcases bytes with _ | ⟨b, bs⟩
      · simp [SUN_MAX] at hgt
      · cases b with
        | zero =>
            have : (0 :: bs).length ≤ SUN_MAX := himp rfl
            omega
        | succ n =>
            unfold sockaddr_un
            rw [hc]
            rfl
  · intro h
    exact ⟨_, sockaddr_un_ok bytes h⟩
  · intro e fd kbind klisten kconnect herr
    refine ⟨?_, ?_, ?_⟩
    · simp [listenerBindModel, herr]
    · simp [connectModel, herr]
    · simp [dgramConnectModel, herr]

/-- Witness for C3: the three branches of the length policy at inputs of
length 109 (abstract), 108 and 1, and propagation through a bind model. -/
theorem length_policy_witness :
    sockaddr_un (0 :: List.replicate 108 7) =
      Except.error ⟨ErrorKind.invalidInput, "path must be no longer than SUN_LEN"⟩ ∧
    sockaddr_un (List.replicate 108 7) =
      Except.error ⟨ErrorKind.invalidInput, "path must be shorter than SUN_LEN"⟩ ∧
    (∃ r, sockaddr_un [7] = Except.ok r) ∧
    listenerBindModel (Except.ok 3) (fun _ _ => Except.ok ()) (fun _ => Except.ok ())
        (List.replicate 108 7) =
      Except.error ⟨ErrorKind.invalidInput, "path must be shorter than SUN_LEN"⟩ := by
  refine ⟨(length_policy _).1 rfl (by decide),
    (length_policy _).2.1 (by decide) (by decide),
    (length_policy _).2.2.1 (by decide), ?_⟩
  exact ((length_policy (List.replicate 108 7)).2.2.2
    ⟨ErrorKind.invalidInput, "path must be shorter than SUN_LEN"⟩ 3
    (fun _ _ => Except.ok ()) (fun _ => Except.ok ()) (fun _ _ _ => Except.ok ())
    ((length_policy _).2.1 (by decide) (by decide))).1

/-- C4: `set_timeout None` then `timeout` returns `None` (`None` is stored as
the `{0,0}` timeval and `{0,0}` reads back as `None`), and for a non-zero
duration exactly representable as `{seconds, microseconds}` (seconds within
`time_t`, nanoseconds a whole multiple of 1000), `set_timeout (Some d)` then
`timeout` returns `Some d`. -/
theorem timeout_roundtrip (st : Timeval) (d : Duration)
    (hnz : ¬(d.secs = 0 ∧ d.nanos = 0)) (hs : d.secs ≤ timeTMax)
    (hm : d.nanos % 1000 = 0) :
    Inner.timeout (Inner.set_timeout st none).2 = none ∧
    Inner.timeout (Inner.set_timeout st (some d)).2 = some d := by
  have hnb : ¬(d.secs = 0 ∧ d.nanos / 1000 = 0) := by omega
  refine ⟨rfl, ?_⟩
  have hstate : (Inner.set_timeout st (some d)).2 = ⟨d.secs, d.nanos / 1000⟩ := by
    simp [Inner.set_timeout, hnz, hnb, Nat.not_lt.mpr hs]
  rw [hstate]
  simp [Inner.timeout, hnb, Nat.div_mul_cancel (Nat.dvd_of_mod_eq_zero hm)]

/-- Witness for C4 at the stored state `{3,4}` and duration 1 s 500 µs. -/
theorem timeout_roundtrip_witness :
    Inner.timeout (Inner.set_timeout ⟨3, 4⟩ none).2 = none ∧
    Inner.timeout (Inner.set_timeout ⟨3, 4⟩ (some ⟨1, 500000⟩)).2 = some ⟨1, 500000⟩ :=
  timeout_roundtrip ⟨3, 4⟩ ⟨1, 500000⟩ (by decide) (by decide) (by decide)

/-- C5: `set_timeout (Some 0)` fails with `InvalidInput` and leaves the stored
timeout unchanged (the error is returned before the kernel `setsockopt`). -/
theorem zero_timeout_rejected (st : Timeval) :
    Inner.set_timeout st (some ⟨0, 0⟩) =
      (Except.error ⟨ErrorKind.invalidInput, "cannot set a 0 duration timeout"⟩, st) := rfl

/-- Witness for C5 at the stored state `{3,4}`. -/
theorem zero_timeout_rejected_witness :
    Inner.set_timeout ⟨3, 4⟩ (some ⟨0, 0⟩) =
      (Except.error ⟨ErrorKind.invalidInput, "cannot set a 0 duration timeout"⟩, ⟨3, 4⟩) :=
  zero_timeout_rejected ⟨3, 4⟩

/-- C6 counterexample: for a duration whose seconds exceed `time_t::MAX`
(here `2^63`), the stored pair is `{time_t::MAX, 999999}` -- the microseconds
field is 999999, not 1 as the claim states for case (a). -/
theorem timeout_clamp_cex :
    (Inner.set_timeout ⟨0, 0⟩ (some ⟨9223372036854775808, 0⟩)).2 =
      ⟨timeTMax, 999999⟩ ∧ (999999 : Nat) ≠ 1 := by
  constructor
  · rfl
  · decide

/-- C6 amended: converting a non-zero duration, (a) if the seconds exceed the
platform maximum `time_t` the stored pair is `{time_t::MAX, 999999}`; (b) if
both fields would encode to zero after truncating to microseconds, the stored
pair is `{0, 1}` (microseconds nudged to 1). -/
theorem timeout_clamp (st : Timeval) (d : Duration)
    (hnz : ¬(d.secs = 0 ∧ d.nanos = 0)) :
    (timeTMax < d.secs →
      (Inner.set_timeout st (some d)).2 = ⟨timeTMax, 999999⟩) ∧
    (d.secs = 0 → d.nanos / 1000 = 0 →
      (Inner.set_timeout st (some d)).2 = ⟨0, 1⟩) := by
  constructor
  · intro hgt
    have hne : timeTMax ≠ 0 := by decide
    simp [Inner.set_timeout, hnz, hgt, hne]
  · intro h0 hdiv
    have hn : d.nanos ≠ 0 := by
      intro hc
      exact hnz ⟨h0, hc⟩
    simp [Inner.set_timeout, hnz, h0, hdiv, hn]

/-- Witness for the amended C6: both clamp branches at concrete durations. -/
theorem timeout_clamp_witness :
    (Inner.set_timeout ⟨0, 0⟩ (some ⟨9223372036854775808, 5⟩)).2 =
      ⟨timeTMax, 999999⟩ ∧
    (Inner.set_timeout ⟨0, 0⟩ (some ⟨0, 500⟩)).2 = ⟨0, 1⟩ :=
  ⟨(timeout_clamp ⟨0, 0⟩ ⟨9223372036854775808, 5⟩ (by decide)).1 (by decide),
   (timeout_clamp ⟨0, 0⟩ ⟨0, 500⟩ (by decide)).2 rfl rfl⟩

/-- C7: classification is `Unnamed` exactly when the valid length equals the
path-field offset or, on non-Linux platforms, when the first path byte is
zero; and when the kernel reports a zero-length address, `SocketAddr::new`
substitutes a valid length of `sun_path_offset`, so the result satisfies
`is_unnamed`. -/
theorem unnamed_classification (isLinux : Bool) (s : SocketAddr)
    (k : KernelAddrResult) (h : sun_path_offset ≤ s.len)
    (hret : 0 ≤ k.ret) (hlen0 : k.len = 0) :
    (s.is_unnamed isLinux = true ↔
      (s.len = sun_path_offset ∨
        (isLinux = false ∧ s.addr.sun_path.headD 0 = 0))) ∧
    (SocketAddr.new k = Except.ok ⟨k.addr, sun_path_offset⟩ ∧
      SocketAddr.is_unnamed isLinux ⟨k.addr, sun_path_offset⟩ = true) := by
  refine ⟨?_, ?_, ?_⟩
  · simp only [SocketAddr.is_unnamed, SocketAddr.address]
    by_cases hc : s.len - sun_path_offset = 0 ∨
        (isLinux = false ∧ s.addr.sun_path.headD 0 = 0)
    · rw [if_pos hc]
      constructor
      · intro _
        rcases hc with h1 | h2
        · exact Or.inl (Nat.le_antisymm (Nat.sub_eq_zero_iff_le.mp h1) h)
        · exact Or.inr h2
      · intro _
        rfl
    · rw [if_neg hc]
      constructor
      · intro hfalse
        exfalso
        by_cases h2 : s.addr.sun_path.headD 0 = 0
        · rw [if_pos h2] at hfalse
          simp at hfalse
        · rw [if_neg h2] at hfalse
          simp at hfalse
      · intro hor
        exfalso
        apply hc
        rcases hor with h1 | h2
        · exact Or.inl (by rw [h1, Nat.sub_self])
        · exact Or.inr h2
  · unfold SocketAddr.new
    rw [if_neg (Int.not_lt.mpr hret), if_pos hlen0]
  · rfl

/-- Witness for C7 at a 16-byte zero-path address and a kernel result of
length zero. -/
theorem unnamed_classification_witness :
    ((⟨⟨AF_UNIX, List.replicate 108 0⟩, 2⟩ : SocketAddr).is_unnamed true = true ↔
      ((⟨⟨AF_UNIX, List.replicate 108 0⟩, 2⟩ : SocketAddr).len = sun_path_offset ∨
        (true = false ∧
          (⟨⟨AF_UNIX, List.replicate 108 0⟩, 2⟩ :
            SocketAddr).addr.sun_path.headD 0 = 0))) ∧
    (SocketAddr.new ⟨0, ⟨AF_UNIX, List.replicate 108 0⟩, 0⟩ =
        Except.ok ⟨⟨AF_UNIX, List.replicate 108 0⟩, sun_path_offset⟩ ∧
      SocketAddr.is_unnamed true ⟨⟨AF_UNIX, List.replicate 108 0⟩, sun_path_offset⟩ =
        true) :=
  unnamed_classification true ⟨⟨AF_UNIX, List.replicate 108 0⟩, 2⟩
    ⟨0, ⟨AF_UNIX, List.replicate 108 0⟩, 0⟩ (by decide) (by decide) rfl

/-- C8 counterexample: adopting descriptor 7 whose kernel-reported family is
2 (not `AF_UNIX = 1`) succeeds and returns the wrapped descriptor --
`from_raw_fd` performs no family verification and cannot fail, contradicting
the claimed `InvalidInput` failure. -/
theorem adopt_cex :
    from_raw_fd_result 2 7 = Except.ok (UnixStream.from_raw_fd 7) ∧
    (2 : Nat) ≠ AF_UNIX := by
  constructor
  · rfl
  · decide

/-- C8 amended: adoption never inspects the descriptor's family and always
succeeds; the UNIX-family verification instead happens in `SocketAddr::new`
(reached through `local_addr` / `peer_addr`), which fails with `InvalidInput`
"file descriptor did not correspond to a Unix socket" when the kernel reports
a non-UNIX family with a non-zero address length. -/
theorem adopt_no_check (family : Nat) (fd : Int) (k : KernelAddrResult)
    (hret : 0 ≤ k.ret) (hlen : k.len ≠ 0) (hfam : k.addr.sun_family ≠ AF_UNIX) :
    from_raw_fd_result family fd = Except.ok (UnixStream.from_raw_fd fd) ∧
    SocketAddr.new k = Except.error ⟨ErrorKind.invalidInput,
      "file descriptor did not correspond to a Unix socket"⟩ := by
  refine ⟨rfl, ?_⟩
  unfold SocketAddr.new
  rw [if_neg (Int.not_lt.mpr hret), if_neg hlen, if_pos hfam]

/-- Witness for the amended C8 at family 2, descriptor 7, and an `AF_INET`
kernel address of length 16. -/
theorem adopt_no_check_witness :
    from_raw_fd_result 2 7 = Except.ok (UnixStream.from_raw_fd 7) ∧
    SocketAddr.new ⟨0, ⟨2, List.replicate 108 0⟩, 16⟩ =
      Except.error ⟨ErrorKind.invalidInput,
        "file descriptor did not correspond to a Unix socket"⟩ :=
  adopt_no_check 2 7 ⟨0, ⟨2, List.replicate 108 0⟩, 16⟩ (by decide) (by decide)
    (by decide)

/-- C9: for both listeners, the incoming iterator's `next` never returns
`None` (every accept outcome, success or failure, is wrapped in `Some`), and
`size_hint` reports no known upper bound. -/
theorem incoming_live (ks kq : KernelAddrResult) :
    (IncomingStream.next ks).isSome = true ∧
    (IncomingSeqpacket.next kq).isSome = true ∧
    IncomingStream.size_hint.2 = none ∧
    IncomingSeqpacket.size_hint.2 = none :=
  ⟨rfl, rfl, rfl, rfl⟩

/-- Witness for C9 at a concrete accept outcome. -/
theorem incoming_live_witness :
    (IncomingStream.next ⟨4, ⟨AF_UNIX, List.replicate 108 0⟩, 0⟩).isSome = true ∧
    (IncomingSeqpacket.next ⟨5, ⟨AF_UNIX, List.replicate 108 0⟩, 0⟩).isSome = true ∧
    IncomingStream.size_hint.2 = none ∧
    IncomingSeqpacket.size_hint.2 = none :=
  incoming_live ⟨4, ⟨AF_UNIX, List.replicate 108 0⟩, 0⟩
    ⟨5, ⟨AF_UNIX, List.replicate 108 0⟩, 0⟩

/-- Helper: `SocketAddr::new` succeeds whenever the kernel call succeeded and
wrote either a zero length or a UNIX-family address. -/
theorem socketAddr_new_ok (k : KernelAddrResult) (hret : ¬ k.ret < 0)
    (hfam : k.len = 0 ∨ k.addr.sun_family = AF_UNIX) :
    ∃ a, SocketAddr.new k = Except.ok a := by
  unfold SocketAddr.new
  rw [if_neg hret]
  by_cases hlen : k.len = 0
  · rw [if_pos hlen]
    exact ⟨_, rfl⟩
  · rw [if_neg hlen, if_neg (by simp [hfam.resolve_left hlen])]
    exact ⟨_, rfl⟩

/-- C10: `recv_from` returns an error exactly when the kernel count is
negative; a zero-byte datagram is returned as `Ok (0, address)`, and the
returned count equals the kernel's count. -/
theorem recv_from_spec (k : DgramKernelRecv)
    (hfam : k.len = 0 ∨ k.addr.sun_family = AF_UNIX) :
    ((∃ e, UnixDatagram.recv_from k = Except.error e) ↔ k.count < 0) ∧
    (0 ≤ k.count → ∃ a, UnixDatagram.recv_from k = Except.ok (k.count.toNat, a)) ∧
    (k.count = 0 → ∃ a, UnixDatagram.recv_from k = Except.ok (0, a)) := by
  by_cases hneg : k.count < 0
  · have hret : (if 0 < k.count then (1 : Int) else if k.count = 0 then 0 else -1) = -1 := by
      rw [if_neg (by omega), if_neg (by omega)]
    have herr : UnixDatagram.recv_from k =
        Except.error ⟨ErrorKind.osError, "last_os_error"⟩ := by
      simp only [UnixDatagram.recv_from]
      rw [hret]
      rfl
    refine ⟨⟨fun _ => hneg, fun _ => ⟨_, herr⟩⟩, ?_, ?_⟩
    · intro hc
      omega
    · intro hc
      omega
  · obtain ⟨a, ha⟩ :
        ∃ a, SocketAddr.new
          ⟨if 0 < k.count then (1 : Int) else if k.count = 0 then 0 else -1,
            k.addr, k.len⟩ = Except.ok a := by
      apply socketAddr_new_ok _ _ hfam
      by_cases hpos : 0 < k.count
      · rw [if_pos hpos]
        norm_num
      · rw [if_neg hpos, if_pos (by omega)]
        norm_num
    have hrec : UnixDatagram.recv_from k = Except.ok (k.count.toNat, a) := by
      simp only [UnixDatagram.recv_from]
      rw [ha]
    refine ⟨⟨?_, fun hc => absurd hc hneg⟩, fun _ => ⟨a, hrec⟩, fun h0 => ⟨a, ?_⟩⟩
    · rintro ⟨e, he⟩
      rw [hrec] at he
      exact Except.noConfusion he
    · rw [hrec]
      simp [h0]

/-- Witness for C10: a zero-byte datagram from a zero-length kernel address
is returned as `Ok (0, address)` and is not an error. -/
theorem recv_from_spec_witness :
    ((∃ e, UnixDatagram.recv_from ⟨0, ⟨AF_UNIX, List.replicate 108 0⟩, 0⟩ =
        Except.error e) ↔ (0 : Int) < 0) ∧
    (∃ a, UnixDatagram.recv_from ⟨0, ⟨AF_UNIX, List.replicate 108 0⟩, 0⟩ =
      Except.ok (0, a)) :=
  ⟨(recv_from_spec ⟨0, ⟨AF_UNIX, List.replicate 108 0⟩, 0⟩ (Or.inl rfl)).1,
   (recv_from_spec ⟨0, ⟨AF_UNIX, List.replicate 108 0⟩, 0⟩ (Or.inl rfl)).2.2 rfl⟩

end UnixSocket
